import Mathlib

/-!
Shallow embedding of the genesis-bootstrap and chain-coordinator logic of
`packages/lodestar/src/chain/chain.ts` (class `BeaconChain`): the methods
`initializeBeaconChain`, `checkGenesis`, `waitForState`, `getCurrentForkDigest`,
`getHeadState` and the fork-digest cache set at the end of `start()`.

Conventions of the embedding:
- a 32-byte `Root` is a `List Nat` of byte values; equality is bytewise
  (`config.types.Root.equals`);
- the asynchronous methods are modelled as pure state-passing functions over an
  explicit storage snapshot (`Db`) and fork-choice state (`ForkChoice`); the
  eth1 "block" event stream is a list processed in arrival order, each
  handler running to completion before the next event (the single-threaded
  event-loop semantics the coordinator relies on);
- `throw` is modelled with `Except`; a thrown error carries the storage and
  fork-choice state as they stand at the throw;
- the external SSZ codec (`hashTreeRoot`, `getSingleProof`, `gindexOfProperty`)
  and the pure consensus functions of other packages of the repository
  (`initializeBeaconStateFromEth1`, `isValidGenesisState`, `computeForkDigest`)
  are abstract function fields of `Config`: the claims settled here depend only
  on how `chain.ts` plumbs them, never on their internals;
- the six storage writes issued concurrently by `Promise.all` in
  `initializeBeaconChain` may each independently reject (storage operations are
  fail-loud); a `DbFaults` oracle fixes which of them reject in a given run.
  `Promise.all` awaits every write, so a write that does not itself reject
  commits even when a sibling write rejects.
-/

set_option autoImplicit false

namespace LodestarChain

/-- A 32-byte cryptographic digest, as a list of byte values. -/
abbrev Root := List Nat

/-- The all-zero 32-byte root (`Buffer.alloc(32)`), used as the genesis parent root. -/
def zeroRoot : Root := List.replicate 32 0

/-- A 4-byte fork version. -/
abbrev Version := List Nat

/-- A 4-byte fork digest. -/
abbrev ForkDigest := List Nat

/-- The `fork` field of a beacon state. -/
structure Fork where
  previousVersion : Version
  currentVersion : Version
  epoch : Nat
  deriving Repr, DecidableEq

/-- The fields of a `BeaconState` that `chain.ts` reads; the remaining consensus
fields are never touched by the coordinator. -/
structure BeaconState where
  genesisTime : Nat
  genesisValidatorsRoot : Root
  fork : Fork
  eth1DepositIndex : Nat
  deriving Repr, DecidableEq

/-- A beacon block; the body is never inspected by the coordinator and is
modelled as an opaque unit. -/
structure BeaconBlock where
  slot : Nat
  proposerIndex : Nat
  parentRoot : Root
  stateRoot : Root
  body : Unit
  deriving Repr, DecidableEq

/-- A block together with its BLS signature (a 96-byte list). -/
structure SignedBeaconBlock where
  message : BeaconBlock
  signature : List Nat
  deriving Repr, DecidableEq

/-- Modelled from the spec: the genesis slot is 0 (`GENESIS_SLOT` is imported
from `../constants`, which is not among the repository files available here;
the data model fixes "Genesis slot = 0"). -/
def GENESIS_SLOT : Nat := 0

/-- Modelled from the spec: the empty BLS signature constant (`EMPTY_SIGNATURE`
from `../constants`), 96 zero bytes. -/
def EMPTY_SIGNATURE : List Nat := List.replicate 96 0

/-- Modelled from the spec: `getEmptyBlock` from `./genesis/genesis` (not among
the repository files available here) builds an empty block: genesis slot,
zero roots, empty body — "compute `genesis_block` as an empty block". -/
def getEmptyBlock : BeaconBlock :=
  { slot := GENESIS_SLOT
    proposerIndex := 0
    parentRoot := zeroRoot
    stateRoot := zeroRoot
    body := () }

/-- A deposit datum; its payload is opaque to the coordinator, which only
hashes it and forwards it. -/
structure DepositData where
  raw : Nat
  deriving Repr, DecidableEq

/-- A deposit with its single-leaf Merkle proof, as passed to
`initializeBeaconStateFromEth1`. -/
structure Deposit where
  proof : List Root
  data : DepositData
  deriving Repr, DecidableEq

/-- A checkpoint `{epoch, root}`. -/
structure Checkpoint where
  root : Root
  epoch : Nat
  deriving Repr, DecidableEq

/-- The argument record of `forkChoice.addBlock` (interface `ILMDGHOST`). -/
structure ForkChoiceNode where
  slot : Nat
  blockRootBuf : Root
  stateRootBuf : Root
  parentRootBuf : Root
  justifiedCheckpoint : Checkpoint
  finalizedCheckpoint : Checkpoint
  deriving Repr, DecidableEq

/-- The fork-choice state as seen by the coordinator: the list of nodes added
so far (most recent first) and the externally maintained head state root
(`headStateRoot()` of the `ILMDGHOST` instance, whose internals live outside
`chain.ts`). -/
structure ForkChoice where
  nodes : List ForkChoiceNode
  headStateRootVal : Root
  deriving Repr, DecidableEq

/-- `forkChoice.addBlock(node)`: record the node. -/
def ForkChoice.addBlock (fc : ForkChoice) (n : ForkChoiceNode) : ForkChoice :=
  { fc with nodes := n :: fc.nodes }

/-- `forkChoice.headStateRoot()`. -/
def ForkChoice.headStateRoot (fc : ForkChoice) : Root :=
  fc.headStateRootVal

/-- The external dependencies of `chain.ts`: the chain configuration constants,
the per-type SSZ `hashTreeRoot` functions, the deposit-tree proof operations,
and the pure consensus functions imported from other packages of the
repository. All are abstract: the theorems hold for every instantiation. -/
structure Config where
  SLOTS_PER_EPOCH : Nat
  hashTreeRootState : BeaconState → Root
  hashTreeRootBlock : BeaconBlock → Root
  hashTreeRootDepositData : DepositData → Root
  computeForkDigest : Version → Root → ForkDigest
  initializeBeaconStateFromEth1 : Root → Nat → List Deposit → BeaconState
  isValidGenesisState : BeaconState → Bool
  getSingleProof : List Root → Nat → List Root
  gindexOfProperty : Nat → Nat

/-- Modelled from the spec: `computeEpochAtSlot` from
`lodestar-beacon-state-transition` (not among the repository files available
here): "epoch = slot / SLOTS_PER_EPOCH". -/
def computeEpochAtSlot (cfg : Config) (slot : Nat) : Nat :=
  slot / cfg.SLOTS_PER_EPOCH

/-- The storage snapshot (`IBeaconDb`) as the coordinator sees it: blocks keyed
by slot (for `getBlockBySlot`), states keyed by root (for `state.get`), the
chain-head cell, the four checkpoint-root cells, and the deposit-data-root
lists keyed by `eth1DepositIndex`. -/
structure Db where
  blocks : List (Nat × SignedBeaconBlock)
  statesByRoot : List (Root × BeaconState)
  chainHead : Option (SignedBeaconBlock × BeaconState)
  justifiedBlockRoot : Option Root
  finalizedBlockRoot : Option Root
  justifiedStateRoot : Option Root
  finalizedStateRoot : Option Root
  depositDataRootList : List (Nat × List Root)
  deriving Repr, DecidableEq

/-- `db.block.getBlockBySlot(slot)`. -/
def Db.getBlockBySlot (db : Db) (slot : Nat) : Option SignedBeaconBlock :=
  (db.blocks.find? (fun p => p.1 == slot)).map (·.2)

/-- `db.state.get(root)`. -/
def Db.stateGet (db : Db) (root : Root) : Option BeaconState :=
  (db.statesByRoot.find? (fun p => p.1 == root)).map (·.2)

/-- Modelled from the spec: `db.storeChainHead(block, state)` stores the block,
the state and the chain-head pointer atomically across the triple (the
storage contract of §4.B; the storage implementation is not among the
repository files available here). -/
def Db.storeChainHead (db : Db) (cfg : Config) (b : SignedBeaconBlock)
    (s : BeaconState) : Db :=
  { db with
    blocks := (b.message.slot, b) :: db.blocks
    statesByRoot := (cfg.hashTreeRootState s, s) :: db.statesByRoot
    chainHead := some (b, s) }

/-- `db.chain.setJustifiedBlockRoot(root)`. -/
def Db.setJustifiedBlockRoot (db : Db) (r : Root) : Db :=
  { db with justifiedBlockRoot := some r }

/-- `db.chain.setFinalizedBlockRoot(root)`. -/
def Db.setFinalizedBlockRoot (db : Db) (r : Root) : Db :=
  { db with finalizedBlockRoot := some r }

/-- `db.chain.setJustifiedStateRoot(root)`. -/
def Db.setJustifiedStateRoot (db : Db) (r : Root) : Db :=
  { db with justifiedStateRoot := some r }

/-- `db.chain.setFinalizedStateRoot(root)`. -/
def Db.setFinalizedStateRoot (db : Db) (r : Root) : Db :=
  { db with finalizedStateRoot := some r }

/-- `db.depositDataRootList.set(index, list)`. -/
def Db.depositDataRootListSet (db : Db) (i : Nat) (l : List Root) : Db :=
  { db with depositDataRootList := (i, l) :: db.depositDataRootList }

/-- Which of the six storage writes issued by `Promise.all` in
`initializeBeaconChain` reject in a given run. Storage operations are
fail-loud; `Promise.all` still awaits every write, so each write commits or
rejects independently of its siblings. -/
structure DbFaults where
  failStoreChainHead : Bool
  failSetJustifiedBlockRoot : Bool
  failSetFinalizedBlockRoot : Bool
  failSetJustifiedStateRoot : Bool
  failSetFinalizedStateRoot : Bool
  failDepositRootListSet : Bool
  deriving Repr, DecidableEq

/-- The fault-free oracle: every storage write succeeds. -/
def noFaults : DbFaults :=
  ⟨false, false, false, false, false, false⟩

/-- Whether any of the six writes rejects (so the awaited `Promise.all`
rejects). -/
def DbFaults.any (f : DbFaults) : Bool :=
  f.failStoreChainHead || f.failSetJustifiedBlockRoot || f.failSetFinalizedBlockRoot ||
    f.failSetJustifiedStateRoot || f.failSetFinalizedStateRoot || f.failDepositRootListSet

/-- The errors `chain.ts` can raise on the paths modelled here. -/
inductive ChainError where
  /-- "A genesis state with different configuration was detected! Please clean
  the database." -/
  | genesisMismatch
  /-- A storage write of the `Promise.all` batch rejected. -/
  | storageFault
  /-- `getCurrentForkDigest` dereferenced the `null` result of `db.state.get`. -/
  | nullDereference
  deriving Repr, DecidableEq

/-- Equality of `Except` outcomes is decidable, so theorems can be evaluated on
concrete runs. -/
instance {ε α : Type} [DecidableEq ε] [DecidableEq α] : DecidableEq (Except ε α) := fun x y =>
  match x, y with
  | Except.ok a, Except.ok b => decidable_of_iff (a = b) (by simp)
  | Except.ok _, Except.error _ => isFalse (by simp)
  | Except.error _, Except.ok _ => isFalse (by simp)
  | Except.error e, Except.error f => decidable_of_iff (e = f) (by simp)

/-- The mismatch test of `initializeBeaconChain`: a stored block exists at the
genesis slot and its state root differs bytewise from the computed genesis
block's state root. -/
def genesisMismatchDetected (stored : Option SignedBeaconBlock)
    (genesisBlock : BeaconBlock) : Bool :=
  match stored with
  | none => false
  | some sb => !(genesisBlock.stateRoot == sb.message.stateRoot)

/-- The `Promise.all` write batch of `initializeBeaconChain`: the six storage
writes are issued concurrently, and each write that does not itself reject
commits, whether or not a sibling write rejects. Returns the storage after
the batch settled. -/
def applyGenesisWrites (cfg : Config) (faults : DbFaults) (genesisState : BeaconState)
    (depositDataRootList : List Root) (db : Db) : Db :=
  let stateRoot := cfg.hashTreeRootState genesisState
  let genesisBlock := { getEmptyBlock with stateRoot := stateRoot }
  let blockRoot := cfg.hashTreeRootBlock genesisBlock
  let db1 := if faults.failStoreChainHead then db
    else db.storeChainHead cfg ⟨genesisBlock, EMPTY_SIGNATURE⟩ genesisState
  let db2 := if faults.failSetJustifiedBlockRoot then db1
    else db1.setJustifiedBlockRoot blockRoot
  let db3 := if faults.failSetFinalizedBlockRoot then db2
    else db2.setFinalizedBlockRoot blockRoot
  let db4 := if faults.failSetJustifiedStateRoot then db3
    else db3.setJustifiedStateRoot stateRoot
  let db5 := if faults.failSetFinalizedStateRoot then db4
    else db4.setFinalizedStateRoot stateRoot
  if faults.failDepositRootListSet then db5
  else db5.depositDataRootListSet genesisState.eth1DepositIndex depositDataRootList

/-- `BeaconChain.initializeBeaconChain(genesisState, depositDataRootList)`:
build the genesis block from `getEmptyBlock` with
`stateRoot := hashTreeRoot(genesisState)`; fail with `genesisMismatch` when a
block already stored at `GENESIS_SLOT` has a different state root; otherwise
await the `applyGenesisWrites` batch (the call rejects when any write
rejected) and, only when the batch succeeded, add the genesis node to
fork-choice with the all-zero parent root and
`justified = finalized = {root: blockRoot, epoch: computeEpochAtSlot(slot)}`.
Returns the call's outcome with the storage and fork-choice as they stand. -/
def initializeBeaconChain (cfg : Config) (faults : DbFaults)
    (genesisState : BeaconState) (depositDataRootList : List Root)
    (db : Db) (fc : ForkChoice) : Except ChainError Unit × Db × ForkChoice :=
  let stateRoot := cfg.hashTreeRootState genesisState
  let genesisBlock := { getEmptyBlock with stateRoot := stateRoot }
  let blockRoot := cfg.hashTreeRootBlock genesisBlock
  if genesisMismatchDetected (db.getBlockBySlot GENESIS_SLOT) genesisBlock then
    (Except.error ChainError.genesisMismatch, db, fc)
  else
    let db6 := applyGenesisWrites cfg faults genesisState depositDataRootList db
    if faults.any then
      (Except.error ChainError.storageFault, db6, fc)
    else
      let justifiedFinalizedCheckpoint : Checkpoint :=
        { root := blockRoot, epoch := computeEpochAtSlot cfg genesisBlock.slot }
      (Except.ok (),
       db6,
       fc.addBlock
         { slot := genesisBlock.slot
           blockRootBuf := blockRoot
           stateRootBuf := stateRoot
           parentRootBuf := zeroRoot
           justifiedCheckpoint := justifiedFinalizedCheckpoint
           finalizedCheckpoint := justifiedFinalizedCheckpoint })

/-- An eth1 block event `{hash, number, timestamp}` as delivered by the eth1
follower; the hash is modelled as its 32 decoded bytes. -/
structure Eth1Block where
  hash : Root
  number : Nat
  timestamp : Nat
  deriving Repr, DecidableEq

/-- The external SSZ codec's `fromHexString`: eth1 block hashes are modelled
directly as their decoded bytes, so decoding is the identity. -/
def fromHexString (h : Root) : Root := h

/-- The eth1 follower's view of the deposit contract: the ordered log of
deposits, each with the eth1 block number it was included at. -/
structure Eth1 where
  depositLog : List (Nat × DepositData)
  deriving Repr, DecidableEq

/-- Modelled from the spec: `eth1.processPastDeposits(from?, toBlockNumber)`
(interface `IEth1Notifier`, whose implementation is not among the repository
files available here) returns the ordered deposit datas with block number at
most `toBlockNumber`. -/
def Eth1.processPastDeposits (e : Eth1) (fromArg : Option Nat) (toBlockNumber : Nat) :
    List DepositData :=
  match fromArg with
  | _ => (e.depositLog.filter (fun p => p.1 ≤ toBlockNumber)).map (·.2)

/-- The `depositDatas.map((data, index) => ...)` loop of `checkGenesis`: the
callback pushes `hashTreeRoot(data)` onto the tree-backed
`depositDataRootList` and then takes a single-leaf proof from the live tree
(which at that moment holds the leaves up to and including `index`) at
`gindexOfProperty(index)`. `pushed` is the leaves pushed so far and `index`
the index of the next datum; returns the final leaf list and the deposits
with proofs. -/
def buildDepositsWithProofs (cfg : Config) (pushed : List Root) (index : Nat) :
    List DepositData → List Root × List Deposit
  | [] => (pushed, [])
  | data :: rest =>
    let pushed1 := pushed ++ [cfg.hashTreeRootDepositData data]
    let proof := cfg.getSingleProof pushed1 (cfg.gindexOfProperty index)
    let built := buildDepositsWithProofs cfg pushed1 (index + 1) rest
    (built.1, ⟨proof, data⟩ :: built.2)

/-- The genesis state `checkGenesis` computes for an eth1 block:
`initializeBeaconStateFromEth1(config, fromHexString(block.hash),
block.timestamp, depositsWithProofs)` over the deposits fetched up to the
block's number. -/
def checkGenesisState (cfg : Config) (e1 : Eth1) (b : Eth1Block) : BeaconState :=
  cfg.initializeBeaconStateFromEth1 (fromHexString b.hash) b.timestamp
    (buildDepositsWithProofs cfg [] 0 (e1.processPastDeposits none b.number)).2

/-- `BeaconChain.checkGenesis(eth1Block)`: fetch the past deposits up to the
block's number, build the deposit-root list and proofs, compute the candidate
genesis state; when `isValidGenesisState` rejects it, return `null` with
storage and fork-choice untouched; otherwise run `initializeBeaconChain` and
return the state (a rejection inside `initializeBeaconChain` rejects
`checkGenesis`'s promise instead of resolving it). -/
def checkGenesis (cfg : Config) (faults : DbFaults) (e1 : Eth1) (eth1Block : Eth1Block)
    (db : Db) (fc : ForkChoice) :
    Except ChainError (Option BeaconState) × Db × ForkChoice :=
  let depositDatas := e1.processPastDeposits none eth1Block.number
  let built := buildDepositsWithProofs cfg [] 0 depositDatas
  let depositDataRootList := built.1
  let genesisState :=
    cfg.initializeBeaconStateFromEth1 (fromHexString eth1Block.hash) eth1Block.timestamp built.2
  if !cfg.isValidGenesisState genesisState then
    (Except.ok none, db, fc)
  else
    match initializeBeaconChain cfg faults genesisState depositDataRootList db fc with
    | (Except.ok (), db2, fc2) => (Except.ok (some genesisState), db2, fc2)
    | (Except.error e, db2, fc2) => (Except.error e, db2, fc2)

/-- The eth1 "block" listener installed by `waitForState`, run over the events
in arrival order: each event's `checkGenesis` runs to completion; the promise
resolves with the first state `checkGenesis` yields (later events are not
consumed once it resolves); an event whose `checkGenesis` rejects resolves
nothing and processing continues. Returns the resolution, when any, and the
storage and fork-choice after the events processed. -/
def runEth1Events (cfg : Config) (faults : DbFaults) (e1 : Eth1) :
    List Eth1Block → Db → ForkChoice → Option BeaconState × Db × ForkChoice
  | [], db, fc => (none, db, fc)
  | b :: rest, db, fc =>
    match checkGenesis cfg faults e1 b db fc with
    | (Except.ok (some s), db2, fc2) => (some s, db2, fc2)
    | (Except.ok none, db2, fc2) => runEth1Events cfg faults e1 rest db2 fc2
    | (Except.error _, db2, fc2) => runEth1Events cfg faults e1 rest db2 fc2

/-- What `waitForState` returns: the state it resolved with (`db.state.getLatest`
may legitimately yield `null`), the storage and fork-choice after the call,
whether the listen-for-genesis fallback was entered, and whether the eth1
"block" listener is still installed at the return. -/
structure WaitOutcome where
  state : Option BeaconState
  db : Db
  fc : ForkChoice
  enteredFallback : Bool
  listenerInstalled : Bool
  deriving Repr, DecidableEq

/-- `BeaconChain.waitForState()`: try `db.state.getLatest()`; when the call
returns normally its result is the chain state (no eth1 subscription); when
it throws, install the eth1 "block" listener and await the first state a
`checkGenesis` run yields, then remove the listener (the trailing
`if (this.eth1Listener) removeListener` runs before the return). `latest` is
the outcome of the `getLatest` call; `events` the eth1 blocks delivered while
listening. `none` means the promise never resolves and `waitForState` never
returns. -/
def waitForState (cfg : Config) (faults : DbFaults) (e1 : Eth1)
    (latest : Except Unit (Option BeaconState)) (events : List Eth1Block)
    (db : Db) (fc : ForkChoice) : Option WaitOutcome :=
  match latest with
  | Except.ok s => some ⟨s, db, fc, false, false⟩
  | Except.error _ =>
    let listenerOn := true
    match runEth1Events cfg faults e1 events db fc with
    | (some s, db2, fc2) =>
      let listenerAfter := if listenerOn then false else listenerOn
      some ⟨some s, db2, fc2, true, listenerAfter⟩
    | (none, _, _) => none

/-- `BeaconChain.getHeadState()`: `db.state.get(forkChoice.headStateRoot())`. -/
def getHeadState (db : Db) (fc : ForkChoice) : Option BeaconState :=
  db.stateGet fc.headStateRoot

/-- `BeaconChain.getCurrentForkDigest()`: reads the head state and computes
`computeForkDigest(config, state.fork.currentVersion,
state.genesisValidatorsRoot)`. The source dereferences the result of
`db.state.get` with no `null` check, so a missing head state faults. -/
def getCurrentForkDigest (cfg : Config) (db : Db) (fc : ForkChoice) :
    Except ChainError ForkDigest :=
  match getHeadState db fc with
  | some state =>
    Except.ok (cfg.computeForkDigest state.fork.currentVersion state.genesisValidatorsRoot)
  | none => Except.error ChainError.nullDereference

/-- The coordinator's own state: its storage and fork-choice handles and the
`_currentForkDigest` cache (unset before `start()` completes). -/
structure BeaconChain where
  db : Db
  fc : ForkChoice
  currentForkDigest : Option ForkDigest
  deriving Repr, DecidableEq

/-- The last step of `BeaconChain.start()`:
`this._currentForkDigest = await this.getCurrentForkDigest()`. -/
def BeaconChain.startSetForkDigest (cfg : Config) (c : BeaconChain) :
    Except ChainError BeaconChain :=
  match getCurrentForkDigest cfg c.db c.fc with
  | Except.ok d => Except.ok { c with currentForkDigest := some d }
  | Except.error e => Except.error e

/-- The coordinator's view after the external fork-choice instance (driven by
the block processor) moves its head: the shared `forkChoice` handle now holds
the new state, while the coordinator's own fields — in particular the
`_currentForkDigest` cache, which no code of `chain.ts` recomputes after
`start()` — are untouched. -/
def BeaconChain.withForkChoice (c : BeaconChain) (fc2 : ForkChoice) : BeaconChain :=
  { c with fc := fc2 }

/-- The genesis block `initializeBeaconChain` builds for a genesis state:
`getEmptyBlock` with `stateRoot := hashTreeRoot(state)`. -/
def genesisBlockFor (cfg : Config) (s : BeaconState) : BeaconBlock :=
  { getEmptyBlock with stateRoot := cfg.hashTreeRootState s }

/-- The root of the genesis block built for a genesis state. -/
def genesisBlockRootFor (cfg : Config) (s : BeaconState) : Root :=
  cfg.hashTreeRootBlock (genesisBlockFor cfg s)

/-! Concrete fixtures: a small executable instantiation of the abstract
external functions, used to evaluate the theorems at concrete inputs. -/

/-- The all-zero fork. -/
def fork0 : Fork := ⟨[0, 0, 0, 0], [0, 0, 0, 0], 0⟩

/-- A concrete configuration: tiny injective stand-ins for the SSZ hashes, a
genesis predicate that accepts exactly the states with at least one deposit,
and a state builder recording the eth1 data it was called with. -/
def cfgA : Config :=
  { SLOTS_PER_EPOCH := 32
    hashTreeRootState := fun s => [21, s.genesisTime, s.eth1DepositIndex]
    hashTreeRootBlock := fun b => 22 :: b.stateRoot
    hashTreeRootDepositData := fun d => [23, d.raw]
    computeForkDigest := fun v r => v ++ r.take 1
    initializeBeaconStateFromEth1 := fun h t deps => ⟨t, h, fork0, deps.length⟩
    isValidGenesisState := fun s => s.eth1DepositIndex != 0
    getSingleProof := fun leaves g => leaves ++ [[g]]
    gindexOfProperty := fun i => 1000 + i }

/-- The empty storage snapshot. -/
def dbA : Db := ⟨[], [], none, none, none, none, none, []⟩

/-- A fork-choice state with no nodes. -/
def fcA : ForkChoice := ⟨[], [7]⟩

/-- A concrete genesis state. -/
def sA : BeaconState := ⟨1600, [9], fork0, 0⟩

/-- A storage snapshot already holding a genesis-slot block whose state root
differs from the one `cfgA` computes for `sA`. -/
def dbB : Db :=
  { dbA with blocks := [(GENESIS_SLOT, ⟨{ getEmptyBlock with stateRoot := [99] }, EMPTY_SIGNATURE⟩)] }

/-- A fault oracle under which exactly the `setFinalizedBlockRoot` write
rejects. -/
def faultsC3 : DbFaults := ⟨false, false, true, false, false, false⟩

/-- A deposit log with a single deposit included at eth1 block number 5. -/
def e1A : Eth1 := ⟨[(5, ⟨11⟩)]⟩

/-- An eth1 block before the deposit: 0 deposits, so no valid genesis state. -/
def b0 : Eth1Block := ⟨[170], 1, 100⟩

/-- An eth1 block past the deposit: 1 deposit, so a valid genesis state. -/
def b1 : Eth1Block := ⟨[171], 6, 200⟩

/-- A later eth1 block that also yields a valid genesis state. -/
def b2 : Eth1Block := ⟨[172], 7, 300⟩

/-- The genesis state `checkGenesis` computes for `b1` under `cfgA`. -/
def sG : BeaconState := checkGenesisState cfgA e1A b1

/-- The full outcome of `checkGenesis` on `b1` from the empty storage. -/
def resG : Except ChainError (Option BeaconState) × Db × ForkChoice :=
  checkGenesis cfgA noFaults e1A b1 dbA fcA

/-- A head state before a fork boundary (fork version `[0,0,0,0]`). -/
def s6a : BeaconState := ⟨0, [5], fork0, 1⟩

/-- A head state after a fork boundary (fork version `[1,0,0,0]`). -/
def s6b : BeaconState := ⟨0, [5], ⟨[0, 0, 0, 0], [1, 0, 0, 0], 1⟩, 1⟩

/-- Storage holding both head states, keyed by their state roots. -/
def dbC6 : Db := { dbA with statesByRoot := [([1], s6a), ([2], s6b)] }

/-- Fork-choice whose head state is `s6a`. -/
def fc6a : ForkChoice := ⟨[], [1]⟩

/-- Fork-choice after an external head change to `s6b`. -/
def fc6b : ForkChoice := ⟨[], [2]⟩

/-- The coordinator before `start()` completes, head at `s6a`. -/
def chain6 : BeaconChain := ⟨dbC6, fc6a, none⟩

/-- The coordinator right after `start()` cached the fork digest of `s6a`. -/
def chain6Started : BeaconChain := ⟨dbC6, fc6a, some [0, 0, 0, 0, 5]⟩

/-! Helper lemmas about the deposit-building loop and the event loop. -/

/-- The leaf list built by the deposit loop is the accumulated leaves followed
by the roots of the remaining datas, in order. -/
theorem buildDepositsWithProofs_fst (cfg : Config) (ds : List DepositData) :
    ∀ (pushed : List Root) (k : Nat),
      (buildDepositsWithProofs cfg pushed k ds).1
        = pushed ++ ds.map cfg.hashTreeRootDepositData := by
  induction ds with
  | nil => intro pushed k; simp [buildDepositsWithProofs]
  | cons d rest ih => intro pushed k; simp [buildDepositsWithProofs, ih]

/-- The deposit loop yields one deposit per datum. -/
theorem buildDepositsWithProofs_snd_length (cfg : Config) (ds : List DepositData) :
    ∀ (pushed : List Root) (k : Nat),
      (buildDepositsWithProofs cfg pushed k ds).2.length = ds.length := by
  induction ds with
  | nil => intro pushed k; simp [buildDepositsWithProofs]
  | cons d rest ih => intro pushed k; simp [buildDepositsWithProofs, ih]

/-- The deposit at position `i` of the loop's output carries the datum at
position `i` and the single-leaf proof taken at `gindexOfProperty (k + i)`
over the leaves pushed up to and including leaf `i`. -/
theorem buildDepositsWithProofs_snd_get? (cfg : Config) (ds : List DepositData) :
    ∀ (pushed : List Root) (k i : Nat),
      ((buildDepositsWithProofs cfg pushed k ds).2).get? i
        = (ds.get? i).map (fun d =>
            ⟨cfg.getSingleProof
               (pushed ++ (ds.take (i + 1)).map cfg.hashTreeRootDepositData)
               (cfg.gindexOfProperty (k + i)), d⟩) := by
  induction ds with
  | nil => intro pushed k i; simp [buildDepositsWithProofs]
  | cons d rest ih =>
    intro pushed k i
    match i with
    | 0 => simp [buildDepositsWithProofs]
    | i + 1 =>
      simp only [buildDepositsWithProofs, List.get?, ih]
      simp [List.append_assoc, Nat.add_assoc, Nat.add_comm, Nat.add_left_comm]

/-- Processing a prefix of eth1 events that resolves nothing carries the
storage and fork-choice it produced into the remaining events. -/
theorem runEth1Events_append_of_none (cfg : Config) (faults : DbFaults) (e1 : Eth1)
    (pre : List Eth1Block) :
    ∀ (rest : List Eth1Block) (db : Db) (fc : ForkChoice) (db2 : Db) (fc2 : ForkChoice),
      runEth1Events cfg faults e1 pre db fc = (none, db2, fc2) →
      runEth1Events cfg faults e1 (pre ++ rest) db fc
        = runEth1Events cfg faults e1 rest db2 fc2 := by
  induction pre with
  | nil =>
    intro rest db fc db2 fc2 h
    simp [runEth1Events] at h
    rw [h.1, h.2]
    simp
  | cons p pre' ih =>
    intro rest db fc db2 fc2 h
    simp only [List.cons_append, runEth1Events] at h ⊢
    rcases hcg : checkGenesis cfg faults e1 p db fc with ⟨r, dbx, fcx⟩
    rw [hcg] at h
    rcases r with e | os
    · exact ih rest dbx fcx db2 fc2 h
    · rcases os with _ | s
      · exact ih rest dbx fcx db2 fc2 h
      · simp at h

/-- An error raised by `initializeBeaconChain` is the genesis mismatch or a
storage-write rejection. -/
theorem initializeBeaconChain_error_value (cfg : Config) (faults : DbFaults)
    (s : BeaconState) (ddrl : List Root) (db : Db) (fc : ForkChoice)
    (e : ChainError) (p : Db × ForkChoice)
    (h : initializeBeaconChain cfg faults s ddrl db fc = (Except.error e, p)) :
    e = ChainError.genesisMismatch ∨ e = ChainError.storageFault := by
  simp only [initializeBeaconChain] at h
  split at h
  · simp at h
    exact Or.inl h.1.symm
  · split at h
    · simp at h
      exact Or.inr h.1.symm
    · simp at h

/-- The first component of a `checkGenesis` run is one of: `null` (state not
valid), the computed genesis state, or one of the two initialization
errors. -/
theorem checkGenesis_state_cases (cfg : Config) (faults : DbFaults) (e1 : Eth1)
    (b : Eth1Block) (db : Db) (fc : ForkChoice) :
    (checkGenesis cfg faults e1 b db fc).1 = Except.ok none ∨
    (checkGenesis cfg faults e1 b db fc).1 = Except.ok (some (checkGenesisState cfg e1 b)) ∨
    (checkGenesis cfg faults e1 b db fc).1 = Except.error ChainError.genesisMismatch ∨
    (checkGenesis cfg faults e1 b db fc).1 = Except.error ChainError.storageFault := by
  simp only [checkGenesis, checkGenesisState]
  split
  · exact Or.inl rfl
  · split
    · exact Or.inr (Or.inl rfl)
    · next e db2 fc2 heq =>
      rcases initializeBeaconChain_error_value _ _ _ _ _ _ _ _ heq with h | h
      · rw [h]
        exact Or.inr (Or.inr (Or.inl rfl))
      · rw [h]
        exact Or.inr (Or.inr (Or.inr rfl))

/-- Each record touched by the write batch is committed exactly when its own
write did not reject, independently of its sibling writes. -/
theorem applyGenesisWrites_records (cfg : Config) (faults : DbFaults) (s : BeaconState)
    (ddrl : List Root) (db : Db) :
    ((applyGenesisWrites cfg faults s ddrl db).chainHead
      = if faults.failStoreChainHead then db.chainHead
        else some (⟨genesisBlockFor cfg s, EMPTY_SIGNATURE⟩, s)) ∧
    ((applyGenesisWrites cfg faults s ddrl db).justifiedBlockRoot
      = if faults.failSetJustifiedBlockRoot then db.justifiedBlockRoot
        else some (genesisBlockRootFor cfg s)) ∧
    ((applyGenesisWrites cfg faults s ddrl db).finalizedBlockRoot
      = if faults.failSetFinalizedBlockRoot then db.finalizedBlockRoot
        else some (genesisBlockRootFor cfg s)) ∧
    ((applyGenesisWrites cfg faults s ddrl db).justifiedStateRoot
      = if faults.failSetJustifiedStateRoot then db.justifiedStateRoot
        else some (cfg.hashTreeRootState s)) ∧
    ((applyGenesisWrites cfg faults s ddrl db).finalizedStateRoot
      = if faults.failSetFinalizedStateRoot then db.finalizedStateRoot
        else some (cfg.hashTreeRootState s)) ∧
    ((applyGenesisWrites cfg faults s ddrl db).depositDataRootList
      = if faults.failDepositRootListSet then db.depositDataRootList
        else (s.eth1DepositIndex, ddrl) :: db.depositDataRootList) := by
  rcases faults with ⟨f1, f2, f3, f4, f5, f6⟩
  cases f1 <;> cases f2 <;> cases f3 <;> cases f4 <;> cases f5 <;> cases f6 <;>
    simp [applyGenesisWrites, Db.storeChainHead, Db.setJustifiedBlockRoot,
      Db.setFinalizedBlockRoot, Db.setJustifiedStateRoot, Db.setFinalizedStateRoot,
      Db.depositDataRootListSet, genesisBlockFor, genesisBlockRootFor]

/-- A fault-free `initializeBeaconChain` call with no stored mismatch succeeds,
commits the whole write batch and seeds fork-choice with the genesis node. -/
theorem initializeBeaconChain_noFaults_eq (cfg : Config) (s : BeaconState)
    (ddrl : List Root) (db : Db) (fc : ForkChoice)
    (hnm : genesisMismatchDetected (db.getBlockBySlot GENESIS_SLOT)
      (genesisBlockFor cfg s) = false) :
    initializeBeaconChain cfg noFaults s ddrl db fc
      = (Except.ok (), applyGenesisWrites cfg noFaults s ddrl db,
         fc.addBlock
           { slot := GENESIS_SLOT
             blockRootBuf := genesisBlockRootFor cfg s
             stateRootBuf := cfg.hashTreeRootState s
             parentRootBuf := zeroRoot
             justifiedCheckpoint := ⟨genesisBlockRootFor cfg s, computeEpochAtSlot cfg GENESIS_SLOT⟩
             finalizedCheckpoint :=
               ⟨genesisBlockRootFor cfg s, computeEpochAtSlot cfg GENESIS_SLOT⟩ }) := by
  have hnm2 : genesisMismatchDetected (db.getBlockBySlot GENESIS_SLOT)
      { slot := GENESIS_SLOT, proposerIndex := 0, parentRoot := zeroRoot,
        stateRoot := cfg.hashTreeRootState s, body := () } = false := hnm
  simp [initializeBeaconChain, hnm2, DbFaults.any, noFaults, genesisBlockRootFor,
    genesisBlockFor, getEmptyBlock]

/-- C1: for every genesis state accepted by `initializeBeaconChain` (no
mismatching stored genesis block; the write batch commits), the genesis block
stored as chain head is the empty block — `getEmptyBlock`, slot 0, empty
signature — with `stateRoot = hashTreeRoot(state)`, and fork-choice is seeded
with a node whose parent root is the all-zero 32-byte root and whose
justified and finalized checkpoints both are
`{epoch: computeEpochAtSlot(GENESIS_SLOT) = 0, root: hashTreeRoot(genesis
block)}`. -/
theorem initializeBeaconChain_genesis_head (cfg : Config) (genesisState : BeaconState)
    (ddrl : List Root) (db : Db) (fc : ForkChoice)
    (hnm : genesisMismatchDetected (db.getBlockBySlot GENESIS_SLOT)
      (genesisBlockFor cfg genesisState) = false) :
    genesisBlockFor cfg genesisState
      = { getEmptyBlock with stateRoot := cfg.hashTreeRootState genesisState } ∧
    (genesisBlockFor cfg genesisState).slot = GENESIS_SLOT ∧
    (initializeBeaconChain cfg noFaults genesisState ddrl db fc).1 = Except.ok () ∧
    (initializeBeaconChain cfg noFaults genesisState ddrl db fc).2.1.chainHead
      = some (⟨genesisBlockFor cfg genesisState, EMPTY_SIGNATURE⟩, genesisState) ∧
    (initializeBeaconChain cfg noFaults genesisState ddrl db fc).2.2.nodes
      = { slot := GENESIS_SLOT
          blockRootBuf := genesisBlockRootFor cfg genesisState
          stateRootBuf := cfg.hashTreeRootState genesisState
          parentRootBuf := zeroRoot
          justifiedCheckpoint :=
            ⟨genesisBlockRootFor cfg genesisState, computeEpochAtSlot cfg GENESIS_SLOT⟩
          finalizedCheckpoint :=
            ⟨genesisBlockRootFor cfg genesisState, computeEpochAtSlot cfg GENESIS_SLOT⟩ }
        :: fc.nodes ∧
    computeEpochAtSlot cfg GENESIS_SLOT = 0 := by
  have he := initializeBeaconChain_noFaults_eq cfg genesisState ddrl db fc hnm
  have hw := (applyGenesisWrites_records cfg noFaults genesisState ddrl db).1
  refine ⟨rfl, rfl, ?_, ?_, ?_, ?_⟩
  · rw [he]
  · rw [he]
    simpa [noFaults] using hw
  · rw [he]
    rfl
  · simp [computeEpochAtSlot, GENESIS_SLOT]

/-- Witness for C1: the fault-free initialization from empty storage stores the
genesis block with the empty signature as chain head. -/
theorem initializeBeaconChain_genesis_head_witness :
    (initializeBeaconChain cfgA noFaults sA [] dbA fcA).2.1.chainHead
      = some (⟨genesisBlockFor cfgA sA, EMPTY_SIGNATURE⟩, sA) :=
  (initializeBeaconChain_genesis_head cfgA sA [] dbA fcA (by decide)).2.2.2.1

/-- C2: when storage already holds a genesis-slot block whose state root
differs from the one computed for the provided genesis state,
`initializeBeaconChain` fails with the genesis-mismatch error before issuing
any write: the entire storage snapshot and the fork-choice are returned
unchanged. -/
theorem initializeBeaconChain_mismatch_no_writes (cfg : Config) (faults : DbFaults)
    (s : BeaconState) (ddrl : List Root) (db : Db) (fc : ForkChoice)
    (sb : SignedBeaconBlock)
    (hstored : db.getBlockBySlot GENESIS_SLOT = some sb)
    (hdiff : (genesisBlockFor cfg s).stateRoot ≠ sb.message.stateRoot) :
    initializeBeaconChain cfg faults s ddrl db fc
      = (Except.error ChainError.genesisMismatch, db, fc) := by
  have hb : genesisMismatchDetected (db.getBlockBySlot GENESIS_SLOT)
      { getEmptyBlock with stateRoot := cfg.hashTreeRootState s } = true := by
    rw [hstored]
    simp only [genesisMismatchDetected, Bool.not_eq_eq_eq_not, Bool.not_false]
    simpa [genesisBlockFor] using hdiff
  simp [initializeBeaconChain, hb]

/-- Witness for C2: against a stored genesis block with state root `[99]`, the
call fails with the mismatch error and returns the storage untouched. -/
theorem initializeBeaconChain_mismatch_no_writes_witness :
    initializeBeaconChain cfgA noFaults sA [] dbB fcA
      = (Except.error ChainError.genesisMismatch, dbB, fcA) :=
  initializeBeaconChain_mismatch_no_writes cfgA noFaults sA [] dbB fcA
    ⟨{ getEmptyBlock with stateRoot := [99] }, EMPTY_SIGNATURE⟩ (by decide) (by decide)

/-- Counterexample for C3: with no mismatching genesis block stored, a run in
which only the `setFinalizedBlockRoot` write rejects leaves the chain-head
record committed while the finalized-block-root record is not — the write
batch is not all-or-nothing. -/
theorem initializeBeaconChain_atomicity_cex :
    (initializeBeaconChain cfgA faultsC3 sA [] dbA fcA).1
      = Except.error ChainError.storageFault ∧
    (initializeBeaconChain cfgA faultsC3 sA [] dbA fcA).2.1.chainHead
      = some (⟨genesisBlockFor cfgA sA, EMPTY_SIGNATURE⟩, sA) ∧
    (initializeBeaconChain cfgA faultsC3 sA [] dbA fcA).2.1.justifiedBlockRoot
      = some (genesisBlockRootFor cfgA sA) ∧
    (initializeBeaconChain cfgA faultsC3 sA [] dbA fcA).2.1.finalizedBlockRoot = none := by
  decide

/-- C3 (amended): with no mismatching genesis block stored, the six records are
written by a concurrently issued batch with no all-or-nothing atomicity: each
record is committed exactly when its own write did not reject; when every
write committed the call succeeds and only then is the genesis node added to
fork-choice; when any write rejected the call fails and fork-choice is left
unchanged, but the records whose writes committed stay committed. -/
theorem initializeBeaconChain_writes_per_record (cfg : Config) (faults : DbFaults)
    (s : BeaconState) (ddrl : List Root) (db : Db) (fc : ForkChoice)
    (hnm : genesisMismatchDetected (db.getBlockBySlot GENESIS_SLOT)
      (genesisBlockFor cfg s) = false) :
    ((initializeBeaconChain cfg faults s ddrl db fc).2.1.chainHead
      = if faults.failStoreChainHead then db.chainHead
        else some (⟨genesisBlockFor cfg s, EMPTY_SIGNATURE⟩, s)) ∧
    ((initializeBeaconChain cfg faults s ddrl db fc).2.1.justifiedBlockRoot
      = if faults.failSetJustifiedBlockRoot then db.justifiedBlockRoot
        else some (genesisBlockRootFor cfg s)) ∧
    ((initializeBeaconChain cfg faults s ddrl db fc).2.1.finalizedBlockRoot
      = if faults.failSetFinalizedBlockRoot then db.finalizedBlockRoot
        else some (genesisBlockRootFor cfg s)) ∧
    ((initializeBeaconChain cfg faults s ddrl db fc).2.1.justifiedStateRoot
      = if faults.failSetJustifiedStateRoot then db.justifiedStateRoot
        else some (cfg.hashTreeRootState s)) ∧
    ((initializeBeaconChain cfg faults s ddrl db fc).2.1.finalizedStateRoot
      = if faults.failSetFinalizedStateRoot then db.finalizedStateRoot
        else some (cfg.hashTreeRootState s)) ∧
    ((initializeBeaconChain cfg faults s ddrl db fc).2.1.depositDataRootList
      = if faults.failDepositRootListSet then db.depositDataRootList
        else (s.eth1DepositIndex, ddrl) :: db.depositDataRootList) ∧
    (faults.any = false →
      (initializeBeaconChain cfg faults s ddrl db fc).1 = Except.ok () ∧
      (initializeBeaconChain cfg faults s ddrl db fc).2.2
        = fc.addBlock
            { slot := GENESIS_SLOT
              blockRootBuf := genesisBlockRootFor cfg s
              stateRootBuf := cfg.hashTreeRootState s
              parentRootBuf := zeroRoot
              justifiedCheckpoint :=
                ⟨genesisBlockRootFor cfg s, computeEpochAtSlot cfg GENESIS_SLOT⟩
              finalizedCheckpoint :=
                ⟨genesisBlockRootFor cfg s, computeEpochAtSlot cfg GENESIS_SLOT⟩ }) ∧
    (faults.any = true →
      (initializeBeaconChain cfg faults s ddrl db fc).1
        = Except.error ChainError.storageFault ∧
      (initializeBeaconChain cfg faults s ddrl db fc).2.2 = fc) := by
  have hnm' : genesisMismatchDetected (db.getBlockBySlot GENESIS_SLOT)
      { getEmptyBlock with stateRoot := cfg.hashTreeRootState s } = false := hnm
  have hnm2 : genesisMismatchDetected (db.getBlockBySlot GENESIS_SLOT)
      { slot := GENESIS_SLOT, proposerIndex := 0, parentRoot := zeroRoot,
        stateRoot := cfg.hashTreeRootState s, body := () } = false := hnm
  have hw := applyGenesisWrites_records cfg faults s ddrl db
  have hdb : (initializeBeaconChain cfg faults s ddrl db fc).2.1
      = applyGenesisWrites cfg faults s ddrl db := by
    simp only [initializeBeaconChain, hnm', Bool.false_eq_true, if_false]
    by_cases hany : faults.any <;> simp [hany]
  refine ⟨?_, ?_, ?_, ?_, ?_, ?_, ?_, ?_⟩
  · rw [hdb]; exact hw.1
  · rw [hdb]; exact hw.2.1
  · rw [hdb]; exact hw.2.2.1
  · rw [hdb]; exact hw.2.2.2.1
  · rw [hdb]; exact hw.2.2.2.2.1
  · rw [hdb]; exact hw.2.2.2.2.2
  · intro hany
    constructor <;>
      simp [initializeBeaconChain, hnm2, hany, genesisBlockRootFor, genesisBlockFor,
        getEmptyBlock]
  · intro hany
    constructor <;> simp [initializeBeaconChain, hnm2, hany, getEmptyBlock]

/-- Witness for C3 (amended): under the single-fault oracle the justified
block root is still committed. -/
theorem initializeBeaconChain_writes_per_record_witness :
    (initializeBeaconChain cfgA faultsC3 sA [] dbA fcA).2.1.justifiedBlockRoot
      = some (genesisBlockRootFor cfgA sA) :=
  (initializeBeaconChain_writes_per_record cfgA faultsC3 sA [] dbA fcA (by decide)).2.1

/-- C4: for every eth1 block processed by `checkGenesis`, exactly the deposit
datas with block number at most the block's number are fetched; the root list
is built by appending `hashTreeRoot(depositData)` for each datum in order;
the deposit at index `i` carries datum `i` together with a single-leaf proof
taken at `gindexOfProperty i` over the tree as it stands right after leaf `i`
is pushed; and the genesis state is
`initializeBeaconStateFromEth1(config, E.hash, E.timestamp,
depositsWithProofs)` — any state `checkGenesis` yields is exactly that
state. -/
theorem checkGenesis_deposits_and_state (cfg : Config) (faults : DbFaults) (e1 : Eth1)
    (b : Eth1Block) (db : Db) (fc : ForkChoice) :
    e1.processPastDeposits none b.number
      = (e1.depositLog.filter (fun p => p.1 ≤ b.number)).map (·.2) ∧
    (buildDepositsWithProofs cfg [] 0 (e1.processPastDeposits none b.number)).1
      = (e1.processPastDeposits none b.number).map cfg.hashTreeRootDepositData ∧
    (∀ i : Nat,
      ((buildDepositsWithProofs cfg [] 0 (e1.processPastDeposits none b.number)).2).get? i
        = ((e1.processPastDeposits none b.number).get? i).map (fun d =>
            ⟨cfg.getSingleProof
               (((e1.processPastDeposits none b.number).take (i + 1)).map
                 cfg.hashTreeRootDepositData)
               (cfg.gindexOfProperty i), d⟩)) ∧
    checkGenesisState cfg e1 b
      = cfg.initializeBeaconStateFromEth1 (fromHexString b.hash) b.timestamp
          (buildDepositsWithProofs cfg [] 0 (e1.processPastDeposits none b.number)).2 ∧
    (∀ (s : BeaconState) (db2 : Db) (fc2 : ForkChoice),
      checkGenesis cfg faults e1 b db fc = (Except.ok (some s), db2, fc2) →
      s = checkGenesisState cfg e1 b) := by
  refine ⟨rfl, ?_, ?_, rfl, ?_⟩
  · simpa using buildDepositsWithProofs_fst cfg (e1.processPastDeposits none b.number) [] 0
  · intro i
    simpa using
      buildDepositsWithProofs_snd_get? cfg (e1.processPastDeposits none b.number) [] 0 i
  · intro s db2 fc2 h
    have hc := checkGenesis_state_cases cfg faults e1 b db fc
    rw [h] at hc
    simpa using hc

/-- C5: when the computed genesis state fails `isValidGenesisState`,
`checkGenesis` returns `null` with storage and fork-choice untouched (so
`initializeBeaconChain` was not called and no chain-head or checkpoint record
was written), and the event loop keeps waiting: the run over the remaining
eth1 events proceeds exactly as if this block had not arrived. -/
theorem checkGenesis_invalid_keeps_waiting (cfg : Config) (faults : DbFaults) (e1 : Eth1)
    (b : Eth1Block) (db : Db) (fc : ForkChoice) (rest : List Eth1Block)
    (h : cfg.isValidGenesisState (checkGenesisState cfg e1 b) = false) :
    checkGenesis cfg faults e1 b db fc = (Except.ok none, db, fc) ∧
    runEth1Events cfg faults e1 (b :: rest) db fc
      = runEth1Events cfg faults e1 rest db fc := by
  have h' : cfg.isValidGenesisState
      (cfg.initializeBeaconStateFromEth1 (fromHexString b.hash) b.timestamp
        (buildDepositsWithProofs cfg [] 0 (e1.processPastDeposits none b.number)).2)
      = false := h
  have h1 : checkGenesis cfg faults e1 b db fc = (Except.ok none, db, fc) := by
    simp [checkGenesis, h']
  exact ⟨h1, by simp [runEth1Events, h1]⟩

/-- Witness for C5: the eth1 block `b0` precedes every deposit, so its genesis
state is invalid and `checkGenesis` returns `null` leaving the empty storage
untouched. -/
theorem checkGenesis_invalid_keeps_waiting_witness :
    checkGenesis cfgA noFaults e1A b0 dbA fcA = (Except.ok none, dbA, fcA) :=
  (checkGenesis_invalid_keeps_waiting cfgA noFaults e1A b0 dbA fcA [] (by decide)).1

/-- Counterexample for C6: after `start()` caches the fork digest of the head
state `s6a`, an external head change to `s6b` — whose fork version crossed a
fork boundary — leaves `currentForkDigest` at the cached value, which differs
from `computeForkDigest` of the now-current head state: the digest is not
recomputed on head changes. -/
theorem currentForkDigest_stale_cex :
    BeaconChain.startSetForkDigest cfgA chain6 = Except.ok chain6Started ∧
    (chain6Started.withForkChoice fc6b).currentForkDigest = some [0, 0, 0, 0, 5] ∧
    getHeadState (chain6Started.withForkChoice fc6b).db
      (chain6Started.withForkChoice fc6b).fc = some s6b ∧
    some (cfgA.computeForkDigest s6b.fork.currentVersion s6b.genesisValidatorsRoot)
      ≠ (chain6Started.withForkChoice fc6b).currentForkDigest := by
  decide

/-- C6 (amended): `currentForkDigest` is computed and cached once at the end of
`start()` as `computeForkDigest(head_state.fork.currentVersion,
head_state.genesisValidatorsRoot)` for the head state at start time; no code
of the coordinator recomputes it afterwards, so it stays at the cached value
across any later fork-choice head change. -/
theorem currentForkDigest_cached_at_start (cfg : Config) (c c1 : BeaconChain)
    (h : BeaconChain.startSetForkDigest cfg c = Except.ok c1) :
    (∃ s, getHeadState c.db c.fc = some s ∧
      c1.currentForkDigest
        = some (cfg.computeForkDigest s.fork.currentVersion s.genesisValidatorsRoot)) ∧
    c1.db = c.db ∧ c1.fc = c.fc ∧
    ∀ fc2, (c1.withForkChoice fc2).currentForkDigest = c1.currentForkDigest := by
  simp only [BeaconChain.startSetForkDigest, getCurrentForkDigest] at h
  rcases hh : getHeadState c.db c.fc with _ | s
  · rw [hh] at h
    simp at h
  · rw [hh] at h
    simp at h
    rw [← h]
    exact ⟨⟨s, rfl, rfl⟩, rfl, rfl, fun fc2 => rfl⟩

/-- Witness for C6 (amended): the cached digest survives the head change to
`fc6b` unchanged. -/
theorem currentForkDigest_cached_at_start_witness :
    (chain6Started.withForkChoice fc6b).currentForkDigest
      = chain6Started.currentForkDigest :=
  (currentForkDigest_cached_at_start cfgA chain6 chain6Started (by decide)).2.2.2 fc6b

/-- C7: when the events preceding `b` resolve nothing and `checkGenesis` on `b`
yields a state, `waitForState` resolves with exactly that state — whatever
further events follow `b`, including ones that would also pass the genesis
predicate: events are processed in arrival order and the first passing block
wins. -/
theorem waitForState_first_passing (cfg : Config) (faults : DbFaults) (e1 : Eth1)
    (pre : List Eth1Block) (b : Eth1Block) (post : List Eth1Block)
    (db : Db) (fc : ForkChoice) (s : BeaconState) (db2 : Db) (fc2 : ForkChoice)
    (db3 : Db) (fc3 : ForkChoice)
    (hpre : runEth1Events cfg faults e1 pre db fc = (none, db2, fc2))
    (hb : checkGenesis cfg faults e1 b db2 fc2 = (Except.ok (some s), db3, fc3)) :
    waitForState cfg faults e1 (Except.error ()) (pre ++ b :: post) db fc
      = some ⟨some s, db3, fc3, true, false⟩ := by
  have hrun : runEth1Events cfg faults e1 (pre ++ b :: post) db fc = (some s, db3, fc3) := by
    rw [runEth1Events_append_of_none cfg faults e1 pre (b :: post) db fc db2 fc2 hpre]
    simp [runEth1Events, hb]
  simp [waitForState, hrun]

/-- Witness for C7: with the invalid block `b0` first, the passing block `b1`
next and a second passing block `b2` after it, `waitForState` resolves with
the state of `b1`. -/
theorem waitForState_first_passing_witness :
    waitForState cfgA noFaults e1A (Except.error ()) ([b0] ++ b1 :: [b2]) dbA fcA
      = some ⟨some sG, resG.2.1, resG.2.2, true, false⟩ :=
  waitForState_first_passing cfgA noFaults e1A [b0] b1 [b2] dbA fcA sG dbA fcA
    resG.2.1 resG.2.2 (by decide) (by decide)

/-- Whenever `waitForState` returns through the genesis-bootstrap path, the
outcome records that the fallback was entered and that the eth1 listener has
been removed. -/
theorem waitForState_fallback_shape (cfg : Config) (faults : DbFaults) (e1 : Eth1)
    (events : List Eth1Block) (db : Db) (fc : ForkChoice) (out : WaitOutcome)
    (h : waitForState cfg faults e1 (Except.error ()) events db fc = some out) :
    out.enteredFallback = true ∧ out.listenerInstalled = false := by
  simp only [waitForState] at h
  rcases hr : runEth1Events cfg faults e1 events db fc with ⟨r, dbx, fcx⟩
  rw [hr] at h
  rcases r with _ | s
  · simp at h
  · simp at h
    rw [← h]
    exact ⟨rfl, rfl⟩

/-- C8: whenever `waitForState` resolves through the genesis-bootstrap path,
the eth1 "block" listener that was installed is removed before the return, so
no further eth1 block event reaches the coordinator once genesis is
accepted. -/
theorem waitForState_removes_listener (cfg : Config) (faults : DbFaults) (e1 : Eth1)
    (events : List Eth1Block) (db : Db) (fc : ForkChoice) (out : WaitOutcome)
    (h : waitForState cfg faults e1 (Except.error ()) events db fc = some out) :
    out.enteredFallback = true ∧ out.listenerInstalled = false :=
  waitForState_fallback_shape cfg faults e1 events db fc out h

/-- Witness for C8: the bootstrap run over the single passing block `b1`
returns with the listener removed. -/
theorem waitForState_removes_listener_witness :
    (⟨some sG, resG.2.1, resG.2.2, true, false⟩ : WaitOutcome).enteredFallback = true ∧
    (⟨some sG, resG.2.1, resG.2.2, true, false⟩ : WaitOutcome).listenerInstalled = false :=
  waitForState_removes_listener cfgA noFaults e1A [b1] dbA fcA
    ⟨some sG, resG.2.1, resG.2.2, true, false⟩ (by decide)

/-- C9: `getCurrentForkDigest` is safe exactly under the precondition that the
state referenced by `forkChoice.headStateRoot()` exists in storage: when
`db.state.get` yields a state the call returns its fork digest (the error
branch is unreachable), and when it yields `null` the dereference faults. -/
theorem getCurrentForkDigest_safety (cfg : Config) (db : Db) (fc : ForkChoice) :
    (∀ s, getHeadState db fc = some s →
      getCurrentForkDigest cfg db fc
        = Except.ok (cfg.computeForkDigest s.fork.currentVersion s.genesisValidatorsRoot)) ∧
    (getHeadState db fc = none →
      getCurrentForkDigest cfg db fc = Except.error ChainError.nullDereference) := by
  constructor
  · intro s hs
    simp [getCurrentForkDigest, hs]
  · intro hn
    simp [getCurrentForkDigest, hn]

/-- C10: `waitForState` enters the listen-for-genesis fallback exactly when
`db.state.getLatest()` throws: a `getLatest` call that returns normally —
even with a `null` result — is returned as the chain state with no eth1
subscription, while a throwing call always leads into the fallback. -/
theorem waitForState_fallback_iff (cfg : Config) (faults : DbFaults) (e1 : Eth1)
    (events : List Eth1Block) (db : Db) (fc : ForkChoice) :
    (∀ s : Option BeaconState,
      waitForState cfg faults e1 (Except.ok s) events db fc
        = some ⟨s, db, fc, false, false⟩) ∧
    (∀ out : WaitOutcome,
      waitForState cfg faults e1 (Except.error ()) events db fc = some out →
      out.enteredFallback = true) := by
  constructor
  · intro s
    rfl
  · intro out h
    exact (waitForState_fallback_shape cfg faults e1 events db fc out h).1

end LodestarChain
